import Mathlib

/-!
Shallow embedding of the preflight-gate and rollback core of the ALBATOR
macOS hardening toolkit (src/preflight.py, src/albator_cli.py,
src/lib/rollback.py), together with theorems settling the specification
claims about it.

Ambient effects (subprocess probes, the filesystem, environment variables)
are modelled as explicit environment records passed to each function; the
functions themselves are transcribed from the Python source.
-/

namespace Albator

/-- Status constants from src/preflight.py (STATUS_PASS / STATUS_WARN /
STATUS_FAIL). -/
def STATUS_PASS : String := "PASS"

def STATUS_WARN : String := "WARN"

def STATUS_FAIL : String := "FAIL"

/-- `PreflightCheck` dataclass from src/preflight.py. -/
structure PreflightCheck where
  name : String
  status : String
  message : String
  required : Bool := true
deriving DecidableEq, Repr

/-- Ambient environment consulted by the preflight checks: each field is the
result of one external probe the Python code performs (interpreter version,
`platform` queries, `shutil.which`, privilege probes, filesystem probes,
diagnostic subprocesses). -/
structure PreflightEnv where
  /-- `sys.version_info.major` -/
  pyMajor : Nat
  /-- `sys.version_info.minor` -/
  pyMinor : Nat
  /-- `sys.version_info.micro` -/
  pyMicro : Nat
  /-- `platform.system()` -/
  system : String
  /-- `platform.mac_ver()[0]` (empty when unavailable) -/
  macVer : String
  /-- `shutil.which tool` -/
  which : String → Option String
  /-- `os.name` -/
  osName : String
  /-- `os.geteuid()` -/
  euid : Nat
  /-- whether `sudo -n true` exits 0 (`_run_quick`) -/
  sudoNonInteractiveOk : Bool
  /-- first readable config candidate among `config.yaml`,
  `config/albator.yaml`, if any (`os.path.isfile` + `os.access`) -/
  configPath : Option String
  /-- whether a `.yaml` file exists under the rule directories
  (`os.walk` scan of `rules/` and `custom/rules/`) -/
  rulesFound : Bool
  /-- whether `config/profiles/macos_26_3.yaml` is a readable file -/
  profilePresent : Bool
  /-- `_run_capture` of the socketfilterfw global-state query -/
  fwProbeOk : Bool
  fwProbeOutput : String
  /-- `_run_capture` of `spctl --status` -/
  spctlProbeOk : Bool
  spctlProbeOutput : String
  /-- `os.path.abspath(root_dir or ROOT_DIR or os.getcwd())` -/
  rootDir : String

/-- `needle.isPrefixOf hay` over character lists; used to transcribe
Python's `str.startswith` without relying on byte-position recursion. -/
def charPre (needle hay : List Char) : Bool :=
  needle.isPrefixOf hay

/-- Python's `needle in hay` substring test, over character lists. -/
def charInfix (needle : List Char) : List Char → Bool
  | [] => needle.isEmpty
  | c :: rest => charPre needle (c :: rest) || charInfix needle rest

/-- Python's `s.startswith p`. -/
def strStartsWith (s p : String) : Bool :=
  charPre p.data s.data

/-- Python's `needle in hay` for strings. -/
def strContains (hay needle : String) : Bool :=
  charInfix needle.data hay.data

/-- Python's `s.lower()`. -/
def strLower (s : String) : String :=
  ⟨s.data.map Char.toLower⟩

/-- `_check_python_version` from src/preflight.py: PASS iff
`sys.version_info >= (3, 8)` (tuple comparison on major/minor). -/
def check_python_version (env : PreflightEnv) : PreflightCheck :=
  let current :=
    toString env.pyMajor ++ "." ++ toString env.pyMinor ++ "." ++ toString env.pyMicro
  if env.pyMajor > 3 || (env.pyMajor == 3 && env.pyMinor >= 8) then
    ⟨"python_version", STATUS_PASS, "Python " ++ current, true⟩
  else
    ⟨"python_version", STATUS_FAIL, "Python " ++ current ++ " < 3.8", true⟩

/-- `_check_macos_target` from src/preflight.py. -/
def check_macos_target (env : PreflightEnv) : PreflightCheck :=
  if env.system == "Darwin" then
    let version := if env.macVer == "" then "unknown" else env.macVer
    ⟨"os_target", STATUS_PASS, "macOS detected (" ++ version ++ ")", true⟩
  else
    ⟨"os_target", STATUS_WARN,
      "Non-macOS environment detected (" ++ env.system ++ ")", false⟩

/-- `_check_tool` from src/preflight.py. -/
def check_tool (env : PreflightEnv) (tool : String) (required : Bool) : PreflightCheck :=
  match env.which tool with
  | some path =>
      ⟨"tool_" ++ tool, STATUS_PASS, tool ++ " found at " ++ path, required⟩
  | none =>
      let status := if required then STATUS_FAIL else STATUS_WARN
      ⟨"tool_" ++ tool, status, tool ++ " not found in PATH", required⟩

/-- `_check_sudo_or_root` from src/preflight.py. -/
def check_sudo_or_root (env : PreflightEnv) (require_sudo : Bool) : PreflightCheck :=
  if !require_sudo then
    ⟨"sudo_or_root", STATUS_PASS, "Not required for this operation", false⟩
  else if env.osName != "posix" then
    ⟨"sudo_or_root", STATUS_WARN, "Cannot validate sudo/root on non-POSIX host", false⟩
  else if env.euid == 0 then
    ⟨"sudo_or_root", STATUS_PASS, "Running as root", true⟩
  else if env.sudoNonInteractiveOk then
    ⟨"sudo_or_root", STATUS_PASS, "sudo available without prompt", true⟩
  else
    ⟨"sudo_or_root", STATUS_FAIL,
      "No root privileges and non-interactive sudo unavailable", true⟩

/-- `_check_config_file` from src/preflight.py. -/
def check_config_file (env : PreflightEnv) : PreflightCheck :=
  match env.configPath with
  | some path => ⟨"config_file", STATUS_PASS, "Readable config found: " ++ path, false⟩
  | none => ⟨"config_file", STATUS_WARN, "No readable config file found (using defaults)", false⟩

/-- `_check_rule_dirs` from src/preflight.py. -/
def check_rule_dirs (env : PreflightEnv) (require_rules : Bool) : PreflightCheck :=
  if env.rulesFound then
    ⟨"rule_files", STATUS_PASS, "Rule YAML files detected", require_rules⟩
  else
    let status := if require_rules then STATUS_FAIL else STATUS_WARN
    let msg := "No rule YAML files under " ++ env.rootDir ++ "/rules or "
      ++ env.rootDir ++ "/custom/rules"
    ⟨"rule_files", status, msg, require_rules⟩

/-- `_check_macos_26_3_profile` from src/preflight.py. -/
def check_macos_26_3_profile (env : PreflightEnv) : PreflightCheck :=
  if env.profilePresent then
    ⟨"macos_26_3_profile", STATUS_PASS,
      "Profile present: " ++ env.rootDir ++ "/config/profiles/macos_26_3.yaml", false⟩
  else
    ⟨"macos_26_3_profile", STATUS_WARN, "macOS 26.3 profile pack not found", false⟩

/-- `_check_macos_26_3_signatures` from src/preflight.py: empty off Darwin;
a single skip WARN when the detected version is not 26.3; otherwise the
firewall and Gatekeeper output-signature probes. -/
def check_macos_26_3_signatures (env : PreflightEnv) : List PreflightCheck :=
  if env.system != "Darwin" then []
  else if !(strStartsWith env.macVer "26.3") then
    [⟨"macos_26_3_mode", STATUS_WARN,
      "26.3-specific checks skipped on "
        ++ (if env.macVer == "" then "unknown" else env.macVer), false⟩]
  else
    let fwCheck :=
      if env.fwProbeOk
          && (strContains (strLower env.fwProbeOutput) "enabled"
              || strContains (strLower env.fwProbeOutput) "disabled") then
        PreflightCheck.mk "macos_26_3_firewall_signature" STATUS_PASS
          "Firewall status output signature looks compatible" false
      else
        PreflightCheck.mk "macos_26_3_firewall_signature" STATUS_WARN
          ("Unexpected firewall status output: " ++ env.fwProbeOutput) false
    let spctlCheck :=
      if env.spctlProbeOk && strContains (strLower env.spctlProbeOutput) "assessment" then
        PreflightCheck.mk "macos_26_3_gatekeeper_signature" STATUS_PASS
          "Gatekeeper output signature looks compatible" false
      else
        PreflightCheck.mk "macos_26_3_gatekeeper_signature" STATUS_WARN
          ("Unexpected Gatekeeper output: " ++ env.spctlProbeOutput) false
    [fwCheck, spctlCheck]

/-- Parse a dot-separated version string into its numeric components,
transcribing `_version_tuple` from src/albator_cli.py: every part must be a
decimal numeral, otherwise the empty tuple is returned. Implemented over the
character list (Python splits on "." and applies `int`). -/
def versionParts (cs : List Char) : List (List Char) :=
  match cs with
  | [] => [[]]
  | c :: rest =>
      let parts := versionParts rest
      if c == '.' then [] :: parts
      else
        match parts with
        | [] => [[c]]
        | p :: ps => (c :: p) :: ps

/-- Interpret one version component as a decimal numeral (Python `int`),
failing on the empty string or a non-digit. -/
def parseDecimal (cs : List Char) : Option Nat :=
  match cs with
  | [] => none
  | _ =>
      cs.foldl
        (fun acc c =>
          match acc with
          | none => none
          | some n => if c.isDigit then some (n * 10 + (c.toNat - '0'.toNat)) else none)
        (some 0)

/-- `_version_tuple` from src/albator_cli.py. -/
def version_tuple (version : String) : List Nat :=
  let parsed := (versionParts version.data).mapM parseDecimal
  match parsed with
  | some parts => parts
  | none => []

/-- Python tuple `<` on version tuples (lexicographic; a strict prefix is
smaller). -/
def tupleLt : List Nat → List Nat → Bool
  | [], [] => false
  | [], _ :: _ => true
  | _ :: _, [] => false
  | a :: as_, b :: bs => if a < b then true else if a > b then false else tupleLt as_ bs

/-- Modelled from the spec: the minimum-macOS-version policy check of
`run_preflight`. The `min_macos_version` / `enforce_min_version` handling is
absent from src/preflight.py even though the repository's tests
(tests/test_core_behaviors.py, check name `min_macos_version`) and the CLI
callers (src/albator_cli.py) pass these keyword arguments. Per the spec:
parse the detected OS version and the minimum with dot-separated integer
tuples; if enforcement is on and the detected version is below the minimum
or cannot be determined, FAIL+required; otherwise PASS; with enforcement
off the check still runs but is never required. -/
def check_min_macos_version (env : PreflightEnv) (min_macos_version : String)
    (enforce_min_version : Bool) : PreflightCheck :=
  let detected := version_tuple env.macVer
  let minimum := version_tuple min_macos_version
  let belowOrUnknown := detected.isEmpty || tupleLt detected minimum
  if belowOrUnknown then
    ⟨"min_macos_version",
      if enforce_min_version then STATUS_FAIL else STATUS_WARN,
      "Detected macOS version " ++ env.macVer ++ " below minimum " ++ min_macos_version,
      enforce_min_version⟩
  else
    ⟨"min_macos_version", STATUS_PASS,
      "Detected macOS version " ++ env.macVer ++ " meets minimum " ++ min_macos_version,
      enforce_min_version⟩

/-- The summary dict returned by `run_preflight`. -/
structure PreflightSummary where
  root_dir : String
  require_sudo : Bool
  require_rules : Bool
  checks : List PreflightCheck
  passed : Bool
  failed_required_count : Nat
  warning_count : Nat
deriving DecidableEq, Repr

/-- `run_preflight` from src/preflight.py: the fixed battery of checks, the
26.3 signature checks, the (spec-modelled, see `check_min_macos_version`)
minimum-version policy check, and the derived `passed` /
`failed_required_count` / `warning_count` fields. -/
def run_preflight (env : PreflightEnv) (require_sudo require_rules : Bool)
    (min_macos_version : String) (enforce_min_version : Bool) : PreflightSummary :=
  let checks :=
    [check_python_version env,
     check_macos_target env,
     check_tool env "curl" true,
     check_tool env "jq" true,
     check_tool env "pup" false,
     check_sudo_or_root env require_sudo,
     check_config_file env,
     check_rule_dirs env require_rules,
     check_macos_26_3_profile env]
    ++ check_macos_26_3_signatures env
    ++ [check_min_macos_version env min_macos_version enforce_min_version]
  let failed_required := checks.filter (fun c => c.status == STATUS_FAIL && c.required)
  let warning_count := (checks.filter (fun c => c.status == STATUS_WARN)).length
  { root_dir := env.rootDir
    require_sudo := require_sudo
    require_rules := require_rules
    checks := checks
    passed := failed_required.length == 0
    failed_required_count := failed_required.length
    warning_count := warning_count }

end Albator

namespace Albator

/-- The `checks` field of `run_preflight`, spelled out. -/
theorem run_preflight_checks (env : PreflightEnv) (rs rr : Bool) (mv : String) (en : Bool) :
    (run_preflight env rs rr mv en).checks =
      [check_python_version env,
       check_macos_target env,
       check_tool env "curl" true,
       check_tool env "jq" true,
       check_tool env "pup" false,
       check_sudo_or_root env rs,
       check_config_file env,
       check_rule_dirs env rr,
       check_macos_26_3_profile env]
      ++ check_macos_26_3_signatures env
      ++ [check_min_macos_version env mv en] := rfl

/-- The `passed` field of `run_preflight` is the emptiness test of the
FAIL-and-required filter over its own `checks`. -/
theorem run_preflight_passed (env : PreflightEnv) (rs rr : Bool) (mv : String) (en : Bool) :
    (run_preflight env rs rr mv en).passed =
      (((run_preflight env rs rr mv en).checks.filter
          (fun c => c.status == STATUS_FAIL && c.required)).length == 0) := rfl

/-- Gate predicate, as an iff usable by several theorems below. -/
theorem run_preflight_passed_iff (env : PreflightEnv) (rs rr : Bool) (mv : String) (en : Bool) :
    (run_preflight env rs rr mv en).passed = true ↔
      ∀ c ∈ (run_preflight env rs rr mv en).checks,
        ¬(c.status = STATUS_FAIL ∧ c.required = true) := by
  rw [run_preflight_passed, beq_iff_eq, List.length_eq_zero, List.filter_eq_nil_iff]
  constructor
  · intro h c hc hfail
    exact h c hc (by simp [hfail.1, hfail.2])
  · intro h c hc hb
    exact h c hc (by simpa using hb)

end Albator

namespace Albator

/-- C3: for every invocation of `run_preflight` and every combination of its
input flags, the `passed` field of the returned summary is `true` if and only
if no check in `checks` has both `status == FAIL` and `required == True`. -/
theorem C3_preflight_passed_iff_no_required_fail
    (env : PreflightEnv) (rs rr : Bool) (mv : String) (en : Bool) :
    (run_preflight env rs rr mv en).passed = true ↔
      ∀ c ∈ (run_preflight env rs rr mv en).checks,
        ¬(c.status = STATUS_FAIL ∧ c.required = true) :=
  run_preflight_passed_iff env rs rr mv en

/-- The minimum-version check evaluated at a detected version of "26.2"
against a minimum of "26.3" with enforcement on: FAIL and required. -/
theorem check_min_macos_version_26_2 (env : PreflightEnv) (h : env.macVer = "26.2") :
    check_min_macos_version env "26.3" true =
      ⟨"min_macos_version", STATUS_FAIL,
        "Detected macOS version 26.2 below minimum 26.3", true⟩ := by
  simp only [check_min_macos_version, h]
  rfl

/-- C2: with `min_macos_version="26.3"`, `enforce_min_version=True`, and a
detected macOS version of "26.2", the summary contains a
minimum-OS-version check with status FAIL and `required=True`, and the
summary's `passed` field is False.  (The minimum-version check itself is
modelled from the spec, see `check_min_macos_version`.) -/
theorem C2_min_version_gate_fails
    (env : PreflightEnv) (rs rr : Bool) (h : env.macVer = "26.2") :
    (∃ c ∈ (run_preflight env rs rr "26.3" true).checks,
        c.name = "min_macos_version" ∧ c.status = STATUS_FAIL ∧ c.required = true)
    ∧ (run_preflight env rs rr "26.3" true).passed = false := by
  have hmem : check_min_macos_version env "26.3" true
      ∈ (run_preflight env rs rr "26.3" true).checks := by
    rw [run_preflight_checks]
    exact List.mem_append_right _ (List.mem_singleton_self _)
  have hfields := check_min_macos_version_26_2 env h
  refine ⟨⟨check_min_macos_version env "26.3" true, hmem, by rw [hfields]; exact ⟨rfl, rfl, rfl⟩⟩, ?_⟩
  by_contra hne
  have hpassed : (run_preflight env rs rr "26.3" true).passed = true := by
    cases hp : (run_preflight env rs rr "26.3" true).passed with
    | false => exact absurd hp hne
    | true => rfl
  have := (run_preflight_passed_iff env rs rr "26.3" true).mp hpassed
    (check_min_macos_version env "26.3" true) hmem
  rw [hfields] at this
  exact this ⟨rfl, rfl⟩

/-- Concrete environment whose detected macOS version is "26.2" (everything
else healthy), used by witnesses. -/
def envMac26_2 : PreflightEnv :=
  { pyMajor := 3, pyMinor := 11, pyMicro := 2, system := "Darwin", macVer := "26.2"
    which := fun _ => some "/usr/bin/tool", osName := "posix", euid := 0
    sudoNonInteractiveOk := true, configPath := some "config.yaml", rulesFound := true
    profilePresent := true, fwProbeOk := true, fwProbeOutput := "Firewall is enabled."
    spctlProbeOk := true, spctlProbeOutput := "assessments enabled"
    rootDir := "/tmp/albator" }

/-- Witness for C2 at the concrete environment `envMac26_2`. -/
theorem C2_min_version_gate_fails_witness :
    envMac26_2.macVer = "26.2"
    ∧ ((∃ c ∈ (run_preflight envMac26_2 false false "26.3" true).checks,
          c.name = "min_macos_version" ∧ c.status = STATUS_FAIL ∧ c.required = true)
        ∧ (run_preflight envMac26_2 false false "26.3" true).passed = false) :=
  ⟨rfl, C2_min_version_gate_fails envMac26_2 false false rfl⟩

/-- C10: when `require_sudo=True` is requested on a non-POSIX host, the
`sudo_or_root` check is emitted with status WARN and `required=False`
(in particular it is not `FAIL`+required, so it cannot block the gate),
and that check is part of the summary produced by `run_preflight`. -/
theorem C10_sudo_check_warn_on_non_posix
    (env : PreflightEnv) (rr : Bool) (mv : String) (en : Bool)
    (h : env.osName ≠ "posix") :
    check_sudo_or_root env true =
      ⟨"sudo_or_root", STATUS_WARN, "Cannot validate sudo/root on non-POSIX host", false⟩
    ∧ check_sudo_or_root env true ∈ (run_preflight env true rr mv en).checks := by
  constructor
  · simp only [check_sudo_or_root, Bool.not_true, Bool.false_eq_true, if_false]
    rw [if_pos]
    simp [h]
  · rw [run_preflight_checks]
    exact List.mem_append_left _ (List.mem_append_left _ (by simp))


/-- A concrete non-POSIX environment (Windows-style host) for the C10
witness. -/
def envNonPosix : PreflightEnv :=
  { pyMajor := 3, pyMinor := 11, pyMicro := 2, system := "Windows", macVer := ""
    which := fun _ => some "/usr/bin/tool", osName := "nt", euid := 1000
    sudoNonInteractiveOk := false, configPath := none, rulesFound := false
    profilePresent := false, fwProbeOk := false, fwProbeOutput := ""
    spctlProbeOk := false, spctlProbeOutput := ""
    rootDir := "/tmp/albator" }

/-- Witness for C10 at the concrete environment `envNonPosix`. -/
theorem C10_sudo_check_warn_on_non_posix_witness :
    envNonPosix.osName ≠ "posix"
    ∧ (check_sudo_or_root envNonPosix true =
        ⟨"sudo_or_root", STATUS_WARN, "Cannot validate sudo/root on non-POSIX host", false⟩
      ∧ check_sudo_or_root envNonPosix true
          ∈ (run_preflight envNonPosix true false "26.3" true).checks) :=
  ⟨by decide, C10_sudo_check_warn_on_non_posix envNonPosix false "26.3" true (by decide)⟩

end Albator

namespace Albator

/-- `mutating_script_commands` set from `maybe_run_preflight` in
src/albator_cli.py. -/
def mutating_script_commands : List String :=
  ["privacy", "firewall", "encryption", "app_security"]

/-- `mutating_legacy_actions` set from `maybe_run_preflight` in
src/albator_cli.py. -/
def mutating_legacy_actions : List String :=
  ["apply", "generate", "tailor"]

/-- The gating decision of `maybe_run_preflight` (src/albator_cli.py):
`some (require_sudo, require_rules)` when preflight is run for the given
command (and, for the `legacy` command, the optional `args.action`), `none`
when the function returns without running preflight. -/
def gateRequest (command : String) (action : Option String) : Option (Bool × Bool) :=
  if mutating_script_commands.contains command then
    some (true, false)
  else if command == "legacy"
      && (match action with
          | some a => mutating_legacy_actions.contains a
          | none => false) then
    some (action == some "apply", true)
  else
    none

/-- Observable CLI effects relevant to the gate: printing the preflight
report, emitting the JSON gate-failure object (which embeds the summary),
printing the abort message, and invoking the underlying mutating action
(`run_legacy_command` or `run_bash_script`). -/
inductive CliEvent
  | reportText (summary : PreflightSummary)
  | gateFailJson (summary : PreflightSummary)
  | abortMessage
  | actionRun (command : String)
deriving DecidableEq, Repr

/-- `maybe_run_preflight` from src/albator_cli.py, as emitted events plus an
optional `sys.exit` code (`none` = returns normally). The
`min_macos_version` / `enforce_min_version` policy values come from
`_preflight_policy(config)`. -/
def maybe_run_preflight (env : PreflightEnv) (policyMin : String) (policyEnforce : Bool)
    (command : String) (action : Option String) (json_output : Bool) :
    List CliEvent × Option Nat :=
  match gateRequest command action with
  | none => ([], none)
  | some (rs, rr) =>
      let summary := run_preflight env rs rr policyMin policyEnforce
      let evs := if json_output then [] else [CliEvent.reportText summary]
      if summary.passed then (evs, none)
      else if json_output then (evs ++ [CliEvent.gateFailJson summary], some 1)
      else (evs ++ [CliEvent.abortMessage], some 1)

/-- The tail of `main` in src/albator_cli.py (after the `preflight` and
`doctor` subcommands have been handled and exited): call
`maybe_run_preflight`; a `sys.exit` inside it aborts the process before the
dispatch to `run_legacy_command` / `run_bash_script`; otherwise the
underlying action runs.  The action's own exit status is outside this
model (`none` = the gate let the command proceed). -/
def mainDispatch (env : PreflightEnv) (policyMin : String) (policyEnforce : Bool)
    (command : String) (action : Option String) (json_output : Bool) :
    List CliEvent × Option Nat :=
  match maybe_run_preflight env policyMin policyEnforce command action json_output with
  | (evs, some code) => (evs, some code)
  | (evs, none) => (evs ++ [CliEvent.actionRun command], none)

/-- C5: the gate covers exactly the fixed command sets — the four script
commands always gate with `require_sudo=True, require_rules=False`; the
legacy actions apply/generate/tailor gate with `require_rules=True` and
`require_sudo` exactly when the action is `apply`; every other command
skips preflight. -/
theorem C5_gate_policy :
    (∀ a : Option String,
        gateRequest "privacy" a = some (true, false)
        ∧ gateRequest "firewall" a = some (true, false)
        ∧ gateRequest "encryption" a = some (true, false)
        ∧ gateRequest "app_security" a = some (true, false))
    ∧ gateRequest "legacy" (some "apply") = some (true, true)
    ∧ gateRequest "legacy" (some "generate") = some (false, true)
    ∧ gateRequest "legacy" (some "tailor") = some (false, true)
    ∧ (∀ (command : String) (action : Option String),
        command ∉ mutating_script_commands →
        ¬(command = "legacy" ∧ ∃ a, action = some a ∧ a ∈ mutating_legacy_actions) →
        gateRequest command action = none) := by
  refine ⟨fun a => ⟨rfl, rfl, rfl, rfl⟩, rfl, rfl, rfl, ?_⟩
  intro command action hscript hlegacy
  unfold gateRequest
  rw [if_neg, if_neg]
  · intro hb
    rcases Bool.and_eq_true _ _ |>.mp hb with ⟨hcmd, hact⟩
    refine hlegacy ⟨by simpa using hcmd, ?_⟩
    match action with
    | none => simp at hact
    | some a => exact ⟨a, rfl, by simpa using hact⟩
  · intro hb
    exact hscript (by simpa using hb)

/-- Witness for C5: one command of each gating class. -/
theorem C5_gate_policy_witness :
    gateRequest "privacy" none = some (true, false)
    ∧ gateRequest "legacy" (some "apply") = some (true, true)
    ∧ gateRequest "legacy" (some "generate") = some (false, true)
    ∧ ("cve_fetch" ∉ mutating_script_commands
        ∧ ¬("cve_fetch" = "legacy" ∧ ∃ a, (none : Option String) = some a ∧ a ∈ mutating_legacy_actions)
        ∧ gateRequest "cve_fetch" none = none)
    ∧ ("legacy" ∉ mutating_script_commands
        ∧ ¬("legacy" = "legacy" ∧ ∃ a, some "list_tags" = some a ∧ a ∈ mutating_legacy_actions)
        ∧ gateRequest "legacy" (some "list_tags") = none) :=
  ⟨(C5_gate_policy.1 none).1,
   C5_gate_policy.2.1,
   C5_gate_policy.2.2.1,
   ⟨by decide, by simp [mutating_legacy_actions],
    C5_gate_policy.2.2.2.2 "cve_fetch" none (by decide) (by simp [mutating_legacy_actions])⟩,
   ⟨by decide, by simp [mutating_legacy_actions],
    C5_gate_policy.2.2.2.2 "legacy" (some "list_tags") (by decide)
      (by simp [mutating_legacy_actions])⟩⟩

end Albator

namespace Albator

/-- C4: whenever `maybe_run_preflight` runs preflight for a mutating command
and the summary's `passed` field is False, the dispatch emits the full
preflight report (as text, or embedded in the JSON gate-failure object),
aborts with exit code 1, and never invokes the underlying mutating
action. -/
theorem C4_gate_failure_aborts_before_action
    (env : PreflightEnv) (policyMin : String) (policyEnforce : Bool)
    (command : String) (action : Option String) (json_output : Bool)
    (rs rr : Bool)
    (hgate : gateRequest command action = some (rs, rr))
    (hfail : (run_preflight env rs rr policyMin policyEnforce).passed = false) :
    (mainDispatch env policyMin policyEnforce command action json_output).2 = some 1
    ∧ (∃ e ∈ (mainDispatch env policyMin policyEnforce command action json_output).1,
        e = CliEvent.reportText (run_preflight env rs rr policyMin policyEnforce)
        ∨ e = CliEvent.gateFailJson (run_preflight env rs rr policyMin policyEnforce))
    ∧ ∀ c, CliEvent.actionRun c
        ∉ (mainDispatch env policyMin policyEnforce command action json_output).1 := by
  cases json_output with
  | false =>
      have hrun : maybe_run_preflight env policyMin policyEnforce command action false =
          ([CliEvent.reportText (run_preflight env rs rr policyMin policyEnforce),
            CliEvent.abortMessage], some 1) := by
        unfold maybe_run_preflight
        rw [hgate]
        simp [hfail]
      have hmain : mainDispatch env policyMin policyEnforce command action false =
          ([CliEvent.reportText (run_preflight env rs rr policyMin policyEnforce),
            CliEvent.abortMessage], some 1) := by
        unfold mainDispatch
        rw [hrun]
      rw [hmain]
      refine ⟨rfl, ⟨CliEvent.reportText _, by simp, Or.inl rfl⟩, ?_⟩
      intro c hc
      simp at hc
  | true =>
      have hrun : maybe_run_preflight env policyMin policyEnforce command action true =
          ([CliEvent.gateFailJson (run_preflight env rs rr policyMin policyEnforce)],
            some 1) := by
        unfold maybe_run_preflight
        rw [hgate]
        simp [hfail]
      have hmain : mainDispatch env policyMin policyEnforce command action true =
          ([CliEvent.gateFailJson (run_preflight env rs rr policyMin policyEnforce)],
            some 1) := by
        unfold mainDispatch
        rw [hrun]
      rw [hmain]
      refine ⟨rfl, ⟨CliEvent.gateFailJson _, by simp, Or.inr rfl⟩, ?_⟩
      intro c hc
      simp at hc

/-- Environment in which preflight fails a required check: `curl` (a
required tool) is absent from the PATH. -/
def envMissingCurl : PreflightEnv :=
  { pyMajor := 3, pyMinor := 11, pyMicro := 2, system := "Darwin", macVer := "26.3"
    which := fun t => if t == "curl" then none else some "/usr/bin/tool"
    osName := "posix", euid := 0
    sudoNonInteractiveOk := true, configPath := some "config.yaml", rulesFound := true
    profilePresent := true, fwProbeOk := true, fwProbeOutput := "Firewall is enabled."
    spctlProbeOk := true, spctlProbeOutput := "assessments enabled"
    rootDir := "/tmp/albator" }

/-- Witness for C4: the `firewall` script command with `curl` missing is
gated, the gate fails, the process aborts with exit code 1, the report is
emitted, and the action never runs. -/
theorem C4_gate_failure_aborts_before_action_witness :
    gateRequest "firewall" none = some (true, false)
    ∧ (run_preflight envMissingCurl true false "26.3" true).passed = false
    ∧ ((mainDispatch envMissingCurl "26.3" true "firewall" none false).2 = some 1
        ∧ (∃ e ∈ (mainDispatch envMissingCurl "26.3" true "firewall" none false).1,
            e = CliEvent.reportText (run_preflight envMissingCurl true false "26.3" true)
            ∨ e = CliEvent.gateFailJson (run_preflight envMissingCurl true false "26.3" true))
        ∧ ∀ c, CliEvent.actionRun c
            ∉ (mainDispatch envMissingCurl "26.3" true "firewall" none false).1) :=
  ⟨rfl, by decide,
   C4_gate_failure_aborts_before_action envMissingCurl "26.3" true "firewall" none false
     true false rfl (by decide)⟩

end Albator

namespace Albator

/-- The live macOS state the restore routines mutate: the `defaults`
database (domain → key → value) and the launchd service-loaded flags. -/
structure SysState where
  defaults : String → String → Option String
  serviceLoaded : String → Bool

/-- `defaults write domain key value`. -/
def SysState.writeDefault (s : SysState) (domain key value : String) : SysState :=
  { s with defaults := fun d k =>
      if d = domain ∧ k = key then some value else s.defaults d k }

/-- `defaults delete domain key`. -/
def SysState.deleteDefault (s : SysState) (domain key : String) : SysState :=
  { s with defaults := fun d k =>
      if d = domain ∧ k = key then none else s.defaults d k }

/-- `launchctl load -w …/<service>.plist`. -/
def SysState.loadService (s : SysState) (service : String) : SysState :=
  { s with serviceLoaded := fun n => if n = service then true else s.serviceLoaded n }

/-- Success/failure oracle for the shell commands the restore routines run
(`defaults write`, `defaults delete`, `launchctl load`): whether each
subprocess exits 0.  `deleteOk` is given the value currently stored under
the domain/key, so that the real behaviour of `defaults delete` (fails when
the key is absent) can be expressed as a hypothesis. -/
structure ExecEnv where
  writeOk : Bool → String → String → String → Bool
  deleteOk : Bool → String → String → Option String → Bool
  loadOk : String → Bool

/-- A successful `defaults write` sets the value; a successful
`defaults delete` removes it; a successful `launchctl load` marks the
service loaded; a failed command leaves the state unchanged. -/
def ExecEnv.runWrite (env : ExecEnv) (useSudo : Bool) (domain key value : String)
    (s : SysState) : Bool × SysState :=
  if env.writeOk useSudo domain key value then (true, s.writeDefault domain key value)
  else (false, s)

def ExecEnv.runDelete (env : ExecEnv) (useSudo : Bool) (domain key : String)
    (s : SysState) : Bool × SysState :=
  if env.deleteOk useSudo domain key (s.defaults domain key) then
    (true, s.deleteDefault domain key)
  else (false, s)

def ExecEnv.runLoad (env : ExecEnv) (service : String) (s : SysState) : Bool × SysState :=
  if env.loadOk service then (true, s.loadService service) else (false, s)

/-- `_restore_defaults_setting` from src/lib/rollback.py, over the fields it
reads from the backup-file dict.  Returns the per-entry success flag and the
resulting live state. -/
def restore_defaults_setting (env : ExecEnv) (domain key : String) (use_sudo : Bool)
    (original_value : Option String) (exists_ : Bool) (dry_run : Bool)
    (s : SysState) : Bool × SysState :=
  if dry_run then (true, s)
  else if exists_ && original_value.isSome then
    match original_value with
    | some v => env.runWrite use_sudo domain key v s
    | none => (false, s)
  else
    -- delete the key (it did not exist originally); a failing delete is
    -- logged as a warning but treated as success
    match env.runDelete use_sudo domain key s with
    | (true, s') => (true, s')
    | (false, s') => (true, s')

/-- `_restore_system_setting` from src/lib/rollback.py: restoration is not
implemented; it logs and reports success without touching the state. -/
def restore_system_setting (dry_run : Bool) (s : SysState) : Bool × SysState :=
  if dry_run then (true, s) else (true, s)

/-- `_restore_service_state` from src/lib/rollback.py. -/
def restore_service_state (env : ExecEnv) (service_name : String) (was_loaded : Bool)
    (dry_run : Bool) (s : SysState) : Bool × SysState :=
  if dry_run then (true, s)
  else if was_loaded then env.runLoad service_name s
  else (true, s)

/-- Contents of one `*.backup` file, keyed by its `type` tag; the `other`
constructor covers a tag that matches none of the dispatched kinds. -/
inductive BackupData
  | defaults (domain key : String) (use_sudo : Bool) (original_value : Option String)
      (exists_ : Bool)
  | system (setting_name : String)
  | service (service_name : String) (was_loaded : Bool)
  | other (tag : String)
deriving DecidableEq, Repr

/-- One entry of the metadata `backups` list (`_update_rollback_metadata`
appends dicts carrying at least the backup `file` path; `rollback` only ever
reads the `file` field). -/
structure BackupRef where
  file : String
deriving DecidableEq, Repr

/-- An invocation of a kind-specific restore routine, with the entry it was
dispatched for. -/
inductive RestoreCall
  | defaults (domain key : String)
  | system (setting_name : String)
  | service (service_name : String)
deriving DecidableEq, Repr

/-- What happened to one backup entry during the restore pass. -/
inductive EntryOutcome
  | missingFile (file : String)
  | restored (call : RestoreCall) (ok : Bool)
  | skippedUnknownKind (tag : String)
deriving DecidableEq, Repr

/-- Whether an outcome increments the `errors` counter of `rollback`. -/
def EntryOutcome.isError : EntryOutcome → Bool
  | .missingFile _ => true
  | .restored _ ok => !ok
  | .skippedUnknownKind _ => false

/-- The per-entry loop of `RollbackManager.rollback`
(src/lib/rollback.py lines 216-236): iterate the `backups` list in its
stored order; a missing backup file counts an error and continues; otherwise
dispatch on the `type` tag to the kind-specific restore routine, counting an
error when it reports failure; a tag matching no branch of the if/elif chain
falls through silently.  Returns the error count, the final live state, and
the outcome of each entry in iteration order. -/
def rollbackEntries (env : ExecEnv) (files : String → Option BackupData) (dry_run : Bool) :
    List BackupRef → SysState → Nat × SysState × List EntryOutcome
  | [], s => (0, s, [])
  | ref :: rest, s =>
      match files ref.file with
      | none =>
          let r := rollbackEntries env files dry_run rest s
          (r.1 + 1, r.2.1, .missingFile ref.file :: r.2.2)
      | some (.defaults domain key use_sudo original_value exists_) =>
          let step :=
            restore_defaults_setting env domain key use_sudo original_value exists_ dry_run s
          let r := rollbackEntries env files dry_run rest step.2
          (r.1 + (if step.1 then 0 else 1), r.2.1,
            .restored (.defaults domain key) step.1 :: r.2.2)
      | some (.system setting_name) =>
          let step := restore_system_setting dry_run s
          let r := rollbackEntries env files dry_run rest step.2
          (r.1 + (if step.1 then 0 else 1), r.2.1,
            .restored (.system setting_name) step.1 :: r.2.2)
      | some (.service service_name was_loaded) =>
          let step := restore_service_state env service_name was_loaded dry_run s
          let r := rollbackEntries env files dry_run rest step.2
          (r.1 + (if step.1 then 0 else 1), r.2.1,
            .restored (.service service_name) step.1 :: r.2.2)
      | some (.other tag) =>
          let r := rollbackEntries env files dry_run rest s
          (r.1, r.2.1, .skippedUnknownKind tag :: r.2.2)

/-- `metadata.json` of one rollback point. -/
structure RollbackMetadata where
  rollback_id : String
  component : String
  description : String
  created_at : String
  backups : List BackupRef
deriving DecidableEq, Repr

/-- The backup store on disk, as `rollback` reads it: the metadata file of a
rollback point (when present) and the contents of each backup file. -/
structure RollbackFS where
  metadata : String → Option RollbackMetadata
  backupFile : String → Option BackupData

/-- Result of `RollbackManager.rollback`. -/
structure RollbackResult where
  success : Bool
  state : SysState
  outcomes : List EntryOutcome

/-- `RollbackManager.rollback` from src/lib/rollback.py: load the metadata
(fail if absent), run the per-entry loop over the `backups` list in stored
order, and succeed iff zero entries errored. -/
def RollbackManager.rollback (env : ExecEnv) (fs : RollbackFS) (rollback_id : String)
    (dry_run : Bool) (s : SysState) : RollbackResult :=
  match fs.metadata rollback_id with
  | none => { success := false, state := s, outcomes := [] }
  | some md =>
      let (errors, s', os) := rollbackEntries env fs.backupFile dry_run md.backups s
      { success := errors == 0, state := s', outcomes := os }

/-- The restore-routine invocation an entry gives rise to, if any. -/
def callOf : BackupData → Option RestoreCall
  | .defaults domain key _ _ _ => some (.defaults domain key)
  | .system n => some (.system n)
  | .service n _ => some (.service n)
  | .other _ => none

/-- The restore-routine invocations recorded in the outcome list, in
order. -/
def restoreCalls : List EntryOutcome → List RestoreCall
  | [] => []
  | .restored c _ :: os => c :: restoreCalls os
  | .missingFile _ :: os => restoreCalls os
  | .skippedUnknownKind _ :: os => restoreCalls os

end Albator

namespace Albator

/-- The restore pass produces one outcome per backup entry, in the stored
order of the `backups` list. -/
theorem rollbackEntries_length (env : ExecEnv) (files : String → Option BackupData)
    (dry_run : Bool) :
    ∀ (refs : List BackupRef) (s : SysState),
      (rollbackEntries env files dry_run refs s).2.2.length = refs.length := by
  intro refs
  induction refs with
  | nil => intro s; rfl
  | cons ref rest ih =>
      intro s
      cases hfile : files ref.file with
      | none => simp [rollbackEntries, hfile, ih]
      | some bd => cases bd <;> simp [rollbackEntries, hfile, ih]

/-- The error counter of the restore pass equals the number of erroring
outcomes. -/
theorem rollbackEntries_errors (env : ExecEnv) (files : String → Option BackupData)
    (dry_run : Bool) :
    ∀ (refs : List BackupRef) (s : SysState),
      (rollbackEntries env files dry_run refs s).1 =
        ((rollbackEntries env files dry_run refs s).2.2.filter EntryOutcome.isError).length := by
  intro refs
  induction refs with
  | nil => intro s; rfl
  | cons ref rest ih =>
      intro s
      cases hfile : files ref.file with
      | none =>
          simp [rollbackEntries, hfile, ih, EntryOutcome.isError]
      | some bd =>
          cases bd with
          | defaults domain key use_sudo original_value exists_ =>
              cases hok :
                  (restore_defaults_setting env domain key use_sudo original_value exists_
                    dry_run s).1 <;>
                simp [rollbackEntries, hfile, hok, ih, EntryOutcome.isError]
          | system setting_name =>
              cases hok : (restore_system_setting dry_run s).1 <;>
                simp [rollbackEntries, hfile, hok, ih, EntryOutcome.isError]
          | service service_name was_loaded =>
              cases hok : (restore_service_state env service_name was_loaded dry_run s).1 <;>
                simp [rollbackEntries, hfile, hok, ih, EntryOutcome.isError]
          | other tag =>
              simp [rollbackEntries, hfile, ih, EntryOutcome.isError]

/-- The restore-routine invocations of the pass, in order: precisely the
entries whose backup file exists and carries a recognized kind, mapped to
their kind-specific call, in the stored (insertion) order of the `backups`
list. -/
theorem rollbackEntries_calls (env : ExecEnv) (files : String → Option BackupData)
    (dry_run : Bool) :
    ∀ (refs : List BackupRef) (s : SysState),
      restoreCalls (rollbackEntries env files dry_run refs s).2.2 =
        refs.filterMap (fun ref => (files ref.file).bind callOf) := by
  intro refs
  induction refs with
  | nil => intro s; rfl
  | cons ref rest ih =>
      intro s
      cases hfile : files ref.file with
      | none => simp [rollbackEntries, hfile, ih, restoreCalls, callOf]
      | some bd => cases bd <;> simp [rollbackEntries, hfile, ih, restoreCalls, callOf]

end Albator

namespace Albator

/-- `filterMap` preserves length when the function is total on the list. -/
theorem length_filterMap_of_isSome {α β : Type} (f : α → Option β) :
    ∀ l : List α, (∀ a ∈ l, (f a).isSome = true) → (l.filterMap f).length = l.length := by
  intro l
  induction l with
  | nil => intro _; rfl
  | cons a rest ih =>
      intro h
      have ha := h a (List.mem_cons_self a rest)
      rw [List.filterMap_cons]
      cases hfa : f a with
      | none => rw [hfa] at ha; simp at ha
      | some b =>
          simp only [List.length_cons]
          rw [ih fun x hx => h x (List.mem_cons_of_mem a hx)]

/-- An execution environment in which `defaults write`, `defaults delete`
and `launchctl load` all exit 0. -/
def execAlwaysOk : ExecEnv :=
  { writeOk := fun _ _ _ _ => true
    deleteOk := fun _ _ _ _ => true
    loadOk := fun _ => true }

/-- Empty live system: no defaults stored, no services loaded. -/
def emptySys : SysState :=
  { defaults := fun _ _ => none, serviceLoaded := fun _ => false }

/-- Backup store with one rollback point holding two entries, captured in
the order DefaultsSetting then ServiceState. -/
def fsTwoEntries : RollbackFS :=
  { metadata := fun i =>
      if i = "firewall_20240101_000000" then
        some { rollback_id := "firewall_20240101_000000"
               component := "firewall"
               description := "demo"
               created_at := "2024-01-01T00:00:00"
               backups := [⟨"/tmp/albator_backup/firewall_20240101_000000/defaults_com.test_Key.backup"⟩,
                           ⟨"/tmp/albator_backup/firewall_20240101_000000/service_com.test.svc.backup"⟩] }
      else none
    backupFile := fun p =>
      if p = "/tmp/albator_backup/firewall_20240101_000000/defaults_com.test_Key.backup" then
        some (.defaults "com.test" "Key" false (some "0") true)
      else if p = "/tmp/albator_backup/firewall_20240101_000000/service_com.test.svc.backup" then
        some (.service "com.test.svc" true)
      else none }

/-- C1 counterexample: on a rollback point whose `backups` list holds a
DefaultsSetting entry followed by a ServiceState entry (both backup files
present), `rollback(dry_run=False)` dispatches the restore routines in the
insertion order of the list — DefaultsSetting first — and not in the
reverse capture order the claim states. -/
theorem C1_rollback_not_reverse_counterexample :
    restoreCalls (RollbackManager.rollback execAlwaysOk fsTwoEntries
        "firewall_20240101_000000" false emptySys).outcomes =
      [RestoreCall.defaults "com.test" "Key", RestoreCall.service "com.test.svc"]
    ∧ restoreCalls (RollbackManager.rollback execAlwaysOk fsTwoEntries
        "firewall_20240101_000000" false emptySys).outcomes ≠
      List.reverse
        [RestoreCall.defaults "com.test" "Key", RestoreCall.service "com.test.svc"] := by
  constructor
  · rfl
  · intro h
    rw [show restoreCalls (RollbackManager.rollback execAlwaysOk fsTwoEntries
        "firewall_20240101_000000" false emptySys).outcomes =
      [RestoreCall.defaults "com.test" "Key", RestoreCall.service "com.test.svc"] from rfl] at h
    simp at h

/-- C1 (amended): for every rollback point whose metadata lists N backup
entries, each with an existing backup file of a recognized kind,
`rollback(rollback_id, dry_run=False)` invokes the kind-specific restore
routine exactly N times — once per entry — and processes the entries in
the insertion (capture) order of the `backups` list, not in reverse. -/
theorem C1_rollback_calls_once_per_entry_in_insertion_order
    (env : ExecEnv) (fs : RollbackFS) (rollback_id : String) (s : SysState)
    (md : RollbackMetadata)
    (hmd : fs.metadata rollback_id = some md)
    (hknown : ∀ ref ∈ md.backups, ((fs.backupFile ref.file).bind callOf).isSome = true) :
    restoreCalls (RollbackManager.rollback env fs rollback_id false s).outcomes =
      md.backups.filterMap (fun ref => (fs.backupFile ref.file).bind callOf)
    ∧ (restoreCalls (RollbackManager.rollback env fs rollback_id false s).outcomes).length =
      md.backups.length := by
  have hcalls : restoreCalls (RollbackManager.rollback env fs rollback_id false s).outcomes =
      md.backups.filterMap (fun ref => (fs.backupFile ref.file).bind callOf) := by
    unfold RollbackManager.rollback
    rw [hmd]
    exact rollbackEntries_calls env fs.backupFile false md.backups s
  exact ⟨hcalls, by rw [hcalls]; exact length_filterMap_of_isSome _ md.backups hknown⟩

/-- Witness for the amended C1 at the two-entry store `fsTwoEntries`. -/
theorem C1_rollback_calls_once_per_entry_in_insertion_order_witness :
    (fsTwoEntries.metadata "firewall_20240101_000000" =
      some { rollback_id := "firewall_20240101_000000"
             component := "firewall"
             description := "demo"
             created_at := "2024-01-01T00:00:00"
             backups := [⟨"/tmp/albator_backup/firewall_20240101_000000/defaults_com.test_Key.backup"⟩,
                         ⟨"/tmp/albator_backup/firewall_20240101_000000/service_com.test.svc.backup"⟩] })
    ∧ (∀ ref ∈ [BackupRef.mk "/tmp/albator_backup/firewall_20240101_000000/defaults_com.test_Key.backup",
                BackupRef.mk "/tmp/albator_backup/firewall_20240101_000000/service_com.test.svc.backup"],
        ((fsTwoEntries.backupFile ref.file).bind callOf).isSome = true)
    ∧ (restoreCalls (RollbackManager.rollback execAlwaysOk fsTwoEntries
          "firewall_20240101_000000" false emptySys).outcomes =
        [BackupRef.mk "/tmp/albator_backup/firewall_20240101_000000/defaults_com.test_Key.backup",
         BackupRef.mk "/tmp/albator_backup/firewall_20240101_000000/service_com.test.svc.backup"].filterMap
          (fun ref => (fsTwoEntries.backupFile ref.file).bind callOf)
      ∧ (restoreCalls (RollbackManager.rollback execAlwaysOk fsTwoEntries
          "firewall_20240101_000000" false emptySys).outcomes).length =
        ([BackupRef.mk "/tmp/albator_backup/firewall_20240101_000000/defaults_com.test_Key.backup",
          BackupRef.mk "/tmp/albator_backup/firewall_20240101_000000/service_com.test.svc.backup"] :
            List BackupRef).length) :=
  ⟨rfl, by decide,
   C1_rollback_calls_once_per_entry_in_insertion_order execAlwaysOk fsTwoEntries
     "firewall_20240101_000000" emptySys _ rfl (by decide)⟩

end Albator

namespace Albator

/-- Backup store with one rollback point holding a single entry whose
backup file carries an unrecognized `type` tag. -/
def fsUnknownKind : RollbackFS :=
  { metadata := fun i =>
      if i = "privacy_20240101_000000" then
        some { rollback_id := "privacy_20240101_000000"
               component := "privacy"
               description := "demo"
               created_at := "2024-01-01T00:00:00"
               backups := [⟨"/tmp/albator_backup/privacy_20240101_000000/mystery.backup"⟩] }
      else none
    backupFile := fun p =>
      if p = "/tmp/albator_backup/privacy_20240101_000000/mystery.backup" then
        some (.other "mystery")
      else none }

/-- C6 counterexample: an entry of unknown setting kind is NOT counted as a
restore failure — the if/elif dispatch falls through silently — so
`rollback` returns True on a point whose only entry has an unknown kind,
where the claim (unknown kind counted as an error, True iff zero errors)
demands False. -/
theorem C6_unknown_kind_not_counted_counterexample :
    (RollbackManager.rollback execAlwaysOk fsUnknownKind
        "privacy_20240101_000000" false emptySys).success = true
    ∧ (RollbackManager.rollback execAlwaysOk fsUnknownKind
        "privacy_20240101_000000" false emptySys).outcomes =
      [EntryOutcome.skippedUnknownKind "mystery"] := by
  exact ⟨rfl, rfl⟩

/-- C6 (amended): `RollbackManager.rollback` never aborts early — every
entry of the `backups` list is attempted even after failures — missing
backup files and failed restore commands are counted as errors, an entry of
unrecognized kind is silently skipped without being counted, and the method
returns True if and only if zero entries errored. -/
theorem C6_rollback_best_effort
    (env : ExecEnv) (fs : RollbackFS) (rollback_id : String) (dry_run : Bool)
    (s : SysState) (md : RollbackMetadata)
    (hmd : fs.metadata rollback_id = some md) :
    (RollbackManager.rollback env fs rollback_id dry_run s).outcomes.length =
      md.backups.length
    ∧ ((RollbackManager.rollback env fs rollback_id dry_run s).success = true ↔
        ((RollbackManager.rollback env fs rollback_id dry_run s).outcomes.filter
          EntryOutcome.isError).length = 0)
    ∧ ∀ o ∈ (RollbackManager.rollback env fs rollback_id dry_run s).outcomes,
        (∃ tag, o = EntryOutcome.skippedUnknownKind tag) → o.isError = false := by
  have hout : (RollbackManager.rollback env fs rollback_id dry_run s).outcomes =
      (rollbackEntries env fs.backupFile dry_run md.backups s).2.2 := by
    unfold RollbackManager.rollback
    rw [hmd]
  have hsucc : (RollbackManager.rollback env fs rollback_id dry_run s).success =
      ((rollbackEntries env fs.backupFile dry_run md.backups s).1 == 0) := by
    unfold RollbackManager.rollback
    rw [hmd]
  refine ⟨?_, ?_, ?_⟩
  · rw [hout]
    exact rollbackEntries_length env fs.backupFile dry_run md.backups s
  · rw [hout, hsucc, rollbackEntries_errors env fs.backupFile dry_run md.backups s]
    exact beq_iff_eq
  · intro o _ ⟨tag, htag⟩
    rw [htag]
    rfl

/-- Witness for the amended C6 at a store whose point mixes a missing
backup file, a failing restore command, and a successful restore. -/
def execWriteFails : ExecEnv :=
  { writeOk := fun _ _ _ _ => false
    deleteOk := fun _ _ _ _ => true
    loadOk := fun _ => true }

def fsMixed : RollbackFS :=
  { metadata := fun i =>
      if i = "encryption_20240101_000000" then
        some { rollback_id := "encryption_20240101_000000"
               component := "encryption"
               description := "demo"
               created_at := "2024-01-01T00:00:00"
               backups := [⟨"/tmp/b/missing.backup"⟩, ⟨"/tmp/b/defaults_d_k.backup"⟩,
                           ⟨"/tmp/b/service_s.backup"⟩] }
      else none
    backupFile := fun p =>
      if p = "/tmp/b/defaults_d_k.backup" then
        some (.defaults "d" "k" false (some "1") true)
      else if p = "/tmp/b/service_s.backup" then
        some (.service "s" false)
      else none }

theorem C6_rollback_best_effort_witness :
    fsMixed.metadata "encryption_20240101_000000" =
      some { rollback_id := "encryption_20240101_000000"
             component := "encryption"
             description := "demo"
             created_at := "2024-01-01T00:00:00"
             backups := [⟨"/tmp/b/missing.backup"⟩, ⟨"/tmp/b/defaults_d_k.backup"⟩,
                         ⟨"/tmp/b/service_s.backup"⟩] }
    ∧ ((RollbackManager.rollback execWriteFails fsMixed
          "encryption_20240101_000000" false emptySys).outcomes.length = 3
        ∧ ((RollbackManager.rollback execWriteFails fsMixed
              "encryption_20240101_000000" false emptySys).success = true ↔
            ((RollbackManager.rollback execWriteFails fsMixed
              "encryption_20240101_000000" false emptySys).outcomes.filter
                EntryOutcome.isError).length = 0)
        ∧ ∀ o ∈ (RollbackManager.rollback execWriteFails fsMixed
              "encryption_20240101_000000" false emptySys).outcomes,
            (∃ tag, o = EntryOutcome.skippedUnknownKind tag) → o.isError = false) :=
  ⟨rfl,
   C6_rollback_best_effort execWriteFails fsMixed "encryption_20240101_000000" false
     emptySys _ rfl⟩

end Albator

namespace Albator

/-- C8: restoring a DefaultsSetting backup entry round-trips the live
setting.  With a faithful `defaults` tool (a write that exits 0 stores the
value; `defaults delete` exits 0 exactly when the key is present): for an
entry captured with `existed_before=True` and captured value V, non-dry-run
restore writes exactly V back to the domain/key and reports success; for an
entry captured with `existed_before=False` (captured value absent), restore
leaves the key absent afterwards and reports success even when the delete
command failed because the key was already absent. -/
theorem C8_restore_defaults_roundtrip
    (env : ExecEnv) (s : SysState) (domain key : String) (use_sudo : Bool) :
    (∀ v : String, env.writeOk use_sudo domain key v = true →
      (restore_defaults_setting env domain key use_sudo (some v) true false s).1 = true
      ∧ (restore_defaults_setting env domain key use_sudo (some v) true false s).2.defaults
          domain key = some v)
    ∧ (env.deleteOk use_sudo domain key (s.defaults domain key) =
          (s.defaults domain key).isSome →
      (restore_defaults_setting env domain key use_sudo none false false s).1 = true
      ∧ (restore_defaults_setting env domain key use_sudo none false false s).2.defaults
          domain key = none) := by
  constructor
  · intro v hw
    have hstep : restore_defaults_setting env domain key use_sudo (some v) true false s =
        (true, s.writeDefault domain key v) := by
      unfold restore_defaults_setting ExecEnv.runWrite
      simp [hw]
    rw [hstep]
    exact ⟨rfl, by simp [SysState.writeDefault]⟩
  · intro hd
    cases hcur : s.defaults domain key with
    | some v0 =>
        have hdel : env.deleteOk use_sudo domain key (s.defaults domain key) = true := by
          rw [hd, hcur]
          rfl
        have hstep : restore_defaults_setting env domain key use_sudo none false false s =
            (true, s.deleteDefault domain key) := by
          unfold restore_defaults_setting ExecEnv.runDelete
          simp [hdel]
        rw [hstep]
        exact ⟨rfl, by simp [SysState.deleteDefault]⟩
    | none =>
        have hdel : env.deleteOk use_sudo domain key (s.defaults domain key) = false := by
          rw [hd, hcur]
          rfl
        have hstep : restore_defaults_setting env domain key use_sudo none false false s =
            (true, s) := by
          unfold restore_defaults_setting ExecEnv.runDelete
          simp [hdel]
        rw [hstep]
        exact ⟨rfl, hcur⟩

/-- A `defaults`-faithful execution environment over a fixed live state:
writes always succeed, deletes succeed exactly when the key is present. -/
def execDefaultsFaithful : ExecEnv :=
  { writeOk := fun _ _ _ _ => true
    deleteOk := fun _ _ _ cur => cur.isSome
    loadOk := fun _ => true }

/-- Live state holding an externally mutated value "1" under
com.test.fw/Enabled. -/
def sysMutated : SysState :=
  { defaults := fun d k => if d = "com.test.fw" ∧ k = "Enabled" then some "1" else none
    serviceLoaded := fun _ => false }

/-- Witness for C8: restoring the captured value "0" over the mutated state
yields "0"; restoring an `existed_before=False` entry over an absent key
succeeds and leaves it absent. -/
theorem C8_restore_defaults_roundtrip_witness :
    (execDefaultsFaithful.writeOk false "com.test.fw" "Enabled" "0" = true
      ∧ (restore_defaults_setting execDefaultsFaithful "com.test.fw" "Enabled" false
          (some "0") true false sysMutated).1 = true
      ∧ (restore_defaults_setting execDefaultsFaithful "com.test.fw" "Enabled" false
          (some "0") true false sysMutated).2.defaults "com.test.fw" "Enabled" = some "0")
    ∧ (execDefaultsFaithful.deleteOk false "com.test.fw" "Absent"
          (sysMutated.defaults "com.test.fw" "Absent") =
        (sysMutated.defaults "com.test.fw" "Absent").isSome
      ∧ (restore_defaults_setting execDefaultsFaithful "com.test.fw" "Absent" false
          none false false sysMutated).1 = true
      ∧ (restore_defaults_setting execDefaultsFaithful "com.test.fw" "Absent" false
          none false false sysMutated).2.defaults "com.test.fw" "Absent" = none) := by
  have h1 := (C8_restore_defaults_roundtrip execDefaultsFaithful sysMutated
      "com.test.fw" "Enabled" false).1 "0" rfl
  have h2 := (C8_restore_defaults_roundtrip execDefaultsFaithful sysMutated
      "com.test.fw" "Absent" false).2 (by rfl)
  exact ⟨⟨rfl, h1.1, h1.2⟩, ⟨by rfl, h2.1, h2.2⟩⟩

end Albator

namespace Albator

/-- Whether a Python call returned a value or let an exception propagate to
its caller. -/
inductive PyResult (α : Type)
  | ok (value : α)
  | raised
deriving DecidableEq, Repr

/-- Filesystem operations attempted by `create_rollback_point`. -/
inductive FsOp
  | makedirs (path : String)
  | writeMetadata (path : String)
deriving DecidableEq, Repr

/-- Ambient environment of `create_rollback_point`: the configuration flag,
the clock, the creator identity, and whether each filesystem step raises. -/
structure CreateEnv where
  /-- `config['rollback']['enabled']` (default True) -/
  rollbackEnabled : Bool
  /-- `datetime.now().strftime("%Y%m%d_%H%M%S")` -/
  timestamp : String
  /-- whether `os.makedirs(rollback_dir, exist_ok=True)` raises -/
  makedirsRaises : Bool
  /-- whether writing `metadata.json` raises -/
  metadataWriteRaises : Bool

/-- `RollbackManager.create_rollback_point` from src/lib/rollback.py
(lines 43-83): when rollback is disabled, return the empty sentinel id at
once; otherwise derive `rollback_id = component_timestamp` and run the
try-block (`os.makedirs`, then write `metadata.json`).  The entire
try-block, `os.makedirs` included, sits inside `except Exception`, whose
handler logs the failure and returns the empty sentinel id — so the
function returns normally in every case.  The second component records the
filesystem operations attempted. -/
def create_rollback_point (env : CreateEnv) (backup_location component _description : String) :
    PyResult String × List FsOp :=
  if !env.rollbackEnabled then (.ok "", [])
  else
    let rollback_id := component ++ "_" ++ env.timestamp
    let rollback_dir := backup_location ++ "/" ++ rollback_id
    if env.makedirsRaises then
      (.ok "", [.makedirs rollback_dir])
    else if env.metadataWriteRaises then
      (.ok "", [.makedirs rollback_dir, .writeMetadata (rollback_dir ++ "/metadata.json")])
    else
      (.ok rollback_id,
        [.makedirs rollback_dir, .writeMetadata (rollback_dir ++ "/metadata.json")])

/-- Environment in which `os.makedirs` fails (filesystem error creating the
backup directory). -/
def envMkdirFails : CreateEnv :=
  { rollbackEnabled := true, timestamp := "20240101_000000"
    makedirsRaises := true, metadataWriteRaises := false }

/-- C7 counterexample: on a filesystem error creating the backup directory,
`create_rollback_point` does NOT propagate the exception — `os.makedirs`
sits inside the catch-all try/except, so the call returns the empty
sentinel id — whereas the claim requires it to propagate exactly there. -/
theorem C7_makedirs_error_not_propagated_counterexample :
    envMkdirFails.makedirsRaises = true
    ∧ (create_rollback_point envMkdirFails "/tmp/albator_backup" "firewall" "demo").1 =
        PyResult.ok ""
    ∧ (create_rollback_point envMkdirFails "/tmp/albator_backup" "firewall" "demo").1 ≠
        PyResult.raised := by
  refine ⟨rfl, rfl, ?_⟩
  decide

/-- C7 (amended): `create_rollback_point` never propagates an exception —
every error during rollback-point creation, including filesystem errors
creating the backup directory, is caught, logged, and yields the empty
sentinel id — and when rollback recording is disabled by configuration it
returns the empty sentinel id without touching the filesystem. -/
theorem C7_create_rollback_point_never_raises
    (env : CreateEnv) (backup_location component description : String) :
    (create_rollback_point env backup_location component description).1 ≠ PyResult.raised
    ∧ (env.rollbackEnabled = true →
        (env.makedirsRaises = true ∨ env.metadataWriteRaises = true) →
        (create_rollback_point env backup_location component description).1 = PyResult.ok "")
    ∧ (env.rollbackEnabled = false →
        (create_rollback_point env backup_location component description).1 = PyResult.ok ""
        ∧ (create_rollback_point env backup_location component description).2 = []) := by
  refine ⟨?_, ?_, ?_⟩
  · unfold create_rollback_point
    cases henb : env.rollbackEnabled with
    | false => simp
    | true =>
        cases hm : env.makedirsRaises with
        | true => simp [hm]
        | false =>
            cases hw : env.metadataWriteRaises with
            | true => simp [hm, hw]
            | false => simp [hm, hw]
  · intro hen herr
    unfold create_rollback_point
    rcases herr with hm | hw
    · simp [hen, hm]
    · cases hm : env.makedirsRaises with
      | true => simp [hen, hm]
      | false => simp [hen, hm, hw]
  · intro hen
    unfold create_rollback_point
    simp [hen]

/-- Witness for the amended C7: a failing-makedirs environment and a
disabled-rollback environment. -/
def envRollbackDisabled : CreateEnv :=
  { rollbackEnabled := false, timestamp := "20240101_000000"
    makedirsRaises := false, metadataWriteRaises := false }

theorem C7_create_rollback_point_never_raises_witness :
    ((create_rollback_point envMkdirFails "/tmp/albator_backup" "firewall" "demo").1 ≠
        PyResult.raised
      ∧ (envMkdirFails.rollbackEnabled = true
          ∧ envMkdirFails.makedirsRaises = true
          ∧ (create_rollback_point envMkdirFails "/tmp/albator_backup" "firewall" "demo").1 =
              PyResult.ok ""))
    ∧ (envRollbackDisabled.rollbackEnabled = false
        ∧ (create_rollback_point envRollbackDisabled "/tmp/albator_backup" "firewall"
            "demo").1 = PyResult.ok ""
        ∧ (create_rollback_point envRollbackDisabled "/tmp/albator_backup" "firewall"
            "demo").2 = []) :=
  ⟨⟨(C7_create_rollback_point_never_raises envMkdirFails "/tmp/albator_backup" "firewall"
        "demo").1,
    rfl, rfl,
    (C7_create_rollback_point_never_raises envMkdirFails "/tmp/albator_backup" "firewall"
        "demo").2.1 rfl (Or.inl rfl)⟩,
   ⟨rfl,
    ((C7_create_rollback_point_never_raises envRollbackDisabled "/tmp/albator_backup"
        "firewall" "demo").2.2 rfl).1,
    ((C7_create_rollback_point_never_raises envRollbackDisabled "/tmp/albator_backup"
        "firewall" "demo").2.2 rfl).2⟩⟩

end Albator

namespace Albator

/-- Newest-first ordering on rollback-point metadata:
`rollback_points.sort(key=lambda x: x.get('created_at', ''), reverse=True)`
puts `a` before `b` when `b.created_at ≤ a.created_at`. -/
def newerFirst (a b : RollbackMetadata) : Prop :=
  b.created_at ≤ a.created_at

instance : DecidableRel newerFirst := fun a b =>
  inferInstanceAs (Decidable (b.created_at ≤ a.created_at))

instance : IsTotal RollbackMetadata newerFirst :=
  ⟨fun a b => le_total b.created_at a.created_at⟩

instance : IsTrans RollbackMetadata newerFirst :=
  ⟨fun _ _ _ hab hbc => le_trans hbc hab⟩

/-- `RollbackManager.list_rollback_points` from src/lib/rollback.py: collect
the readable metadata records (here: the given list, in directory-listing
order) and sort them by `created_at`, newest first. -/
def list_rollback_points (stored : List RollbackMetadata) : List RollbackMetadata :=
  List.insertionSort newerFirst stored

/-- `RollbackManager.cleanup_old_rollback_points` from src/lib/rollback.py:
list the points newest-first; if no more than `keep_count` exist, remove
nothing; otherwise `shutil.rmtree` each point past the first `keep_count`,
counting the successful removals (`rmtreeFails` says which removals raise).
Returns the removed count and the points still stored afterwards. -/
def cleanup_old_rollback_points (stored : List RollbackMetadata) (keep_count : Nat)
    (rmtreeFails : String → Bool) : Nat × List RollbackMetadata :=
  let rollback_points := list_rollback_points stored
  if rollback_points.length ≤ keep_count then (0, rollback_points)
  else
    let points_to_remove := rollback_points.drop keep_count
    ((points_to_remove.filter (fun p => !rmtreeFails p.rollback_id)).length,
      rollback_points.take keep_count
        ++ points_to_remove.filter (fun p => rmtreeFails p.rollback_id))

/-- C9: `cleanup_old_rollback_points(keep_count=N)` on a store holding M
rollback points (with no `rmtree` failure) removes exactly M-N points when
M>N — precisely the M-N oldest by `created_at`, leaving the N newest
intact — returns the number removed, and removes zero (without erroring)
when M≤N. -/
theorem C9_cleanup_keeps_newest
    (stored : List RollbackMetadata) (keep_count : Nat) (rmtreeFails : String → Bool)
    (hok : ∀ p ∈ (list_rollback_points stored).drop keep_count,
      rmtreeFails p.rollback_id = false) :
    (stored.length ≤ keep_count →
      cleanup_old_rollback_points stored keep_count rmtreeFails =
        (0, list_rollback_points stored))
    ∧ (keep_count < stored.length →
        (cleanup_old_rollback_points stored keep_count rmtreeFails).1 =
          stored.length - keep_count
        ∧ (cleanup_old_rollback_points stored keep_count rmtreeFails).2 =
            (list_rollback_points stored).take keep_count
        ∧ (cleanup_old_rollback_points stored keep_count rmtreeFails).2.length = keep_count
        ∧ ∀ removed ∈ (list_rollback_points stored).drop keep_count,
            ∀ kept ∈ (cleanup_old_rollback_points stored keep_count rmtreeFails).2,
              removed.created_at ≤ kept.created_at) := by
  have hlen : (list_rollback_points stored).length = stored.length :=
    List.length_insertionSort _ stored
  constructor
  · intro hle
    unfold cleanup_old_rollback_points
    rw [if_pos (by rw [hlen]; exact hle)]
  · intro hlt
    have hcond : ¬((list_rollback_points stored).length ≤ keep_count) := by
      rw [hlen]; omega
    have hfilterKeep :
        ((list_rollback_points stored).drop keep_count).filter
          (fun p => !rmtreeFails p.rollback_id) =
        (list_rollback_points stored).drop keep_count := by
      rw [List.filter_eq_self]
      intro p hp
      rw [hok p hp]
      rfl
    have hfilterFail :
        ((list_rollback_points stored).drop keep_count).filter
          (fun p => rmtreeFails p.rollback_id) = [] := by
      rw [List.filter_eq_nil_iff]
      intro p hp
      rw [hok p hp]
      simp
    have hval : cleanup_old_rollback_points stored keep_count rmtreeFails =
        (((list_rollback_points stored).drop keep_count).length,
          (list_rollback_points stored).take keep_count) := by
      unfold cleanup_old_rollback_points
      rw [if_neg hcond]
      simp only [hfilterKeep, hfilterFail, List.append_nil]
    rw [hval]
    refine ⟨?_, rfl, ?_, ?_⟩
    · rw [List.length_drop, hlen]
    · rw [List.length_take, hlen]
      omega
    · have hs : List.Sorted newerFirst (list_rollback_points stored) :=
        List.sorted_insertionSort newerFirst stored
      rw [← List.take_append_drop keep_count (list_rollback_points stored)] at hs
      have hcross := (List.pairwise_append.mp hs).2.2
      intro removed hrem kept hkept
      exact hcross kept hkept removed hrem

/-- Concrete three-point store for the C9 witness (directory-listing order
differs from chronological order). -/
def storedPoints : List RollbackMetadata :=
  [{ rollback_id := "firewall_20240102_000000", component := "firewall"
     description := "b", created_at := "2024-01-02T00:00:00", backups := [] },
   { rollback_id := "privacy_20240103_000000", component := "privacy"
     description := "c", created_at := "2024-01-03T00:00:00", backups := [] },
   { rollback_id := "encryption_20240101_000000", component := "encryption"
     description := "a", created_at := "2024-01-01T00:00:00", backups := [] }]

/-- Witness for C9 at the three-point store with `keep_count = 2` (M>N) and
`keep_count = 5` (M≤N). -/
theorem C9_cleanup_keeps_newest_witness :
    ((∀ p ∈ (list_rollback_points storedPoints).drop 2, (fun _ => false) p.rollback_id = false)
      ∧ (2 < storedPoints.length
          ∧ (cleanup_old_rollback_points storedPoints 2 (fun _ => false)).1 =
              storedPoints.length - 2
          ∧ (cleanup_old_rollback_points storedPoints 2 (fun _ => false)).2 =
              (list_rollback_points storedPoints).take 2
          ∧ (cleanup_old_rollback_points storedPoints 2 (fun _ => false)).2.length = 2
          ∧ ∀ removed ∈ (list_rollback_points storedPoints).drop 2,
              ∀ kept ∈ (cleanup_old_rollback_points storedPoints 2 (fun _ => false)).2,
                removed.created_at ≤ kept.created_at))
    ∧ (storedPoints.length ≤ 5
        ∧ cleanup_old_rollback_points storedPoints 5 (fun _ => false) =
            (0, list_rollback_points storedPoints)) := by
  have h2 := C9_cleanup_keeps_newest storedPoints 2 (fun _ => false)
    (fun p _ => rfl)
  have h5 := C9_cleanup_keeps_newest storedPoints 5 (fun _ => false)
    (fun p _ => rfl)
  exact ⟨⟨fun p _ => rfl, by decide, h2.2 (by decide)⟩, by decide, h5.1 (by decide)⟩

end Albator
